import Mathlib

/-!
Shallow embedding of the two collectors of gojuno/elasticsearch_exporter
(`collector/snapshots.go` and `collector/indices_settings.go`), together
with theorems settling the specification claims about them.

Modelling conventions:
* One HTTP GET + JSON decode is represented by a `FetchResult` value that an
  environment supplies for the URL in question: the client-level error, the
  non-200 status, the decode failure, or the decoded payload.
* Channel emission (`ch <- ...`) is modelled as an output list of `Sample`s,
  in emission order.
* `level.Warn(...).Log(...)` calls are modelled as an output list of log
  message strings.
* Go `float64(x)` conversions of integer expressions are modelled as the
  integer itself (`Int`); every metric value produced by these collectors is
  an integer before the conversion.
* Go maps (`SnapshotRepositoriesResponse`, the aggregation result `mssr`,
  `IndicesSettingsResponse`) are modelled as association lists in iteration
  order; map keys are distinct, but none of the theorems need that.
-/

namespace ElasticsearchExporter

/-- Environment-supplied outcome of one `client.Get` + JSON decode against a
URL, as consumed by `getAndParseURL`. -/
inductive FetchResult (α : Type) where
  /-- `client.Get` returned an error (network failure, client timeout, ...). -/
  | getError : FetchResult α
  /-- The GET succeeded with a non-200 HTTP status code. -/
  | statusError : Nat → FetchResult α
  /-- The body was not valid JSON for the target shape. -/
  | decodeError : FetchResult α
  /-- The body decoded into the typed target. -/
  | ok : α → FetchResult α
  deriving Repr, DecidableEq

/-- `true` iff the fetch produced a decoded payload. -/
def FetchResult.isOk {α : Type} : FetchResult α → Bool
  | .ok _ => true
  | _ => false

/-- Error returned by `getAndParseURL`. -/
inductive FetchError where
  /-- "failed to get from ...": the wrapped `client.Get` error. -/
  | getFailed : FetchError
  /-- "HTTP Request failed with code %d". -/
  | httpStatus : Nat → FetchError
  /-- The JSON decoder's error, returned unwrapped. -/
  | parseError : FetchError
  deriving Repr, DecidableEq

/-- Embedding of `getAndParseURL` (identical method bodies in
`snapshots.go:204` and `indices_settings.go:68`): perform the GET, fail with
the wrapped error or the status-code error, and on a JSON decode failure
increment the shared `jsonParseFailures` counter before returning the error.
The counter is passed and returned explicitly. -/
def getAndParseURL {α : Type} (r : FetchResult α) (jsonParseFailures : Nat) :
    Except FetchError α × Nat :=
  match r with
  | .getError => (.error .getFailed, jsonParseFailures)
  | .statusError code => (.error (.httpStatus code), jsonParseFailures)
  | .decodeError => (.error .parseError, jsonParseFailures + 1)
  | .ok a => (.ok a, jsonParseFailures)

/-- Shard counts of one snapshot record (`Shards` of
`SnapshotStatDataResponse`). Modelled from the spec: the struct definition
file is not under `src/`; section 6 lists shard counts
\x7btotal, failed, successful\x7d. -/
structure SnapshotShards where
  total : Int
  failed : Int
  successful : Int
  deriving Repr, DecidableEq

/-- One snapshot record (`SnapshotStatDataResponse`). Modelled from the spec:
the struct definition file is not under `src/`; section 6 lists start/end
timestamps in epoch milliseconds (integers), a state label, a version label,
an index count and a failure count; the fields and their uses match the
accesses in `snapshots.go`. -/
structure SnapshotStatDataResponse where
  state : String
  version : String
  indices : List String
  startTimeInMillis : Int
  endTimeInMillis : Int
  failures : List String
  shards : SnapshotShards
  deriving Repr, DecidableEq

/-- Detail payload for one repository (`SnapshotStatsResponse`): the
chronologically ordered record sequence. Modelled from the spec: the struct
definition file is not under `src/`. -/
structure SnapshotStatsResponse where
  snapshots : List SnapshotStatDataResponse
  deriving Repr, DecidableEq

/-- Discovery payload (`SnapshotRepositoriesResponse`): a map from repository
name to opaque config of which only the keys are used (`snapshots.go:242`).
Modelled from the spec as the key list in iteration order. -/
abbrev SnapshotRepositoriesResponse := List String

/-- Settings of one index, reduced to the one field the collector reads:
`value.Settings.IndexInfo.Blocks.ReadOnly` (`indices_settings.go:127`), a
string compared against `"true"`. Modelled from the spec: the struct
definition file is not under `src/`. -/
structure IndexSettings where
  readOnly : String
  deriving Repr, DecidableEq

/-- Settings payload (`IndicesSettingsResponse`): map from index name to its
settings, modelled as an association list. -/
abbrev IndicesSettingsResponse := List (String × IndexSettings)

/-- `namespace` constant of the `collector` package. Modelled from the spec:
its defining file is not under `src/`; section 6 gives the bookkeeping name
shape `<namespace>_<subsystem>_...` and the exporter's namespace is
`elasticsearch`. -/
def esNamespace : String := "elasticsearch"

/-- `prometheus.BuildFQName namespace subsystem name` joins the non-empty
components with underscores. -/
def buildFQName (ns sub nm : String) : String :=
  ns ++ "_" ++ sub ++ "_" ++ nm

/-- One metric sample sent on the channel: the descriptor's fully qualified
name, the (integer-valued) sample value, and the variable label values. -/
structure Sample where
  desc : String
  value : Int
  labels : List String
  deriving Repr, DecidableEq

/-- `defaultSnapshotLabels` (`snapshots.go:30`). -/
def defaultSnapshotLabels : List String := ["repository", "state", "version"]

/-- `defaultSnapshotLabelValues` (`snapshots.go:31`). -/
def defaultSnapshotLabelValues (repositoryName : String)
    (snapshotStats : SnapshotStatDataResponse) : List String :=
  [repositoryName, snapshotStats.state, snapshotStats.version]

/-- `defaultSnapshotRepositoryLabels` (`snapshots.go:34`). -/
def defaultSnapshotRepositoryLabels : List String := ["repository"]

/-- `defaultSnapshotRepositoryLabelValues` (`snapshots.go:35`). -/
def defaultSnapshotRepositoryLabelValues (repositoryName : String) :
    List String :=
  [repositoryName]

/-- A `snapshotMetric` record (`snapshots.go:15`): descriptor identity plus
value- and label-extraction functions over one snapshot record. The
`prometheus.ValueType` field is informational only and omitted (every entry
is `GaugeValue`). -/
structure SnapshotMetric where
  desc : String
  value : SnapshotStatDataResponse → Int
  labels : String → SnapshotStatDataResponse → List String

/-- A `repositoryMetric` record (`snapshots.go:22`). -/
structure RepositoryMetric where
  desc : String
  value : SnapshotStatsResponse → Int
  labels : String → List String

/-- Value function of `snapshot_start_time_timestamp` (`snapshots.go:96`):
`float64(snapshotStats.StartTimeInMillis / 1000)` — Go's truncating integer
division (`Int.tdiv`) happens before the float conversion. -/
def snapshotStartTimeValue (snapshotStats : SnapshotStatDataResponse) : Int :=
  snapshotStats.startTimeInMillis.tdiv 1000

/-- Value function of `snapshot_end_time_timestamp` (`snapshots.go:108`). -/
def snapshotEndTimeValue (snapshotStats : SnapshotStatDataResponse) : Int :=
  snapshotStats.endTimeInMillis.tdiv 1000

/-- Value function of `oldest_snapshot_timestamp` (`snapshots.go:182`): 0 for
an empty record sequence, otherwise `Snapshots[0].StartTimeInMillis / 1000`
with the same truncating division. -/
def oldestSnapshotTimeValue (snapshotsStats : SnapshotStatsResponse) : Int :=
  match snapshotsStats.snapshots with
  | [] => 0
  | s0 :: _ => s0.startTimeInMillis.tdiv 1000

/-- The seven-entry `snapshotMetrics` table built in `NewSnapshots`
(`snapshots.go:76-161`). Timestamp values are divided by 1000 with Go's
truncating integer division (`Int.tdiv`) before the `float64` conversion. -/
def snapshotMetrics : List SnapshotMetric :=
  [ { desc := buildFQName esNamespace "snapshot_stats" "snapshot_number_of_indices"
      value := fun snapshotStats => (snapshotStats.indices.length : Int)
      labels := defaultSnapshotLabelValues },
    { desc := buildFQName esNamespace "snapshot_stats" "snapshot_start_time_timestamp"
      value := snapshotStartTimeValue
      labels := defaultSnapshotLabelValues },
    { desc := buildFQName esNamespace "snapshot_stats" "snapshot_end_time_timestamp"
      value := snapshotEndTimeValue
      labels := defaultSnapshotLabelValues },
    { desc := buildFQName esNamespace "snapshot_stats" "snapshot_number_of_failures"
      value := fun snapshotStats => (snapshotStats.failures.length : Int)
      labels := defaultSnapshotLabelValues },
    { desc := buildFQName esNamespace "snapshot_stats" "snapshot_total_shards"
      value := fun snapshotStats => snapshotStats.shards.total
      labels := defaultSnapshotLabelValues },
    { desc := buildFQName esNamespace "snapshot_stats" "snapshot_failed_shards"
      value := fun snapshotStats => snapshotStats.shards.failed
      labels := defaultSnapshotLabelValues },
    { desc := buildFQName esNamespace "snapshot_stats" "snapshot_successful_shards"
      value := fun snapshotStats => snapshotStats.shards.successful
      labels := defaultSnapshotLabelValues } ]

/-- The two-entry `repositoryMetrics` table built in `NewSnapshots`
(`snapshots.go:162-190`): snapshot count, and the oldest-snapshot timestamp
with the empty-sequence guard resolving to 0. -/
def repositoryMetrics : List RepositoryMetric :=
  [ { desc := buildFQName esNamespace "snapshot_stats" "number_of_snapshots"
      value := fun snapshotsStats => (snapshotsStats.snapshots.length : Int)
      labels := defaultSnapshotRepositoryLabelValues },
    { desc := buildFQName esNamespace "snapshot_stats" "oldest_snapshot_timestamp"
      value := oldestSnapshotTimeValue
      labels := defaultSnapshotRepositoryLabelValues } ]

/-- Fully qualified names of the three bookkeeping metrics of the `Snapshots`
collector (`snapshots.go:61-75`). -/
def snapshotsUpDesc : String := buildFQName esNamespace "snapshot_stats" "up"

/-- `total_scrapes` descriptor name of the `Snapshots` collector. -/
def snapshotsTotalScrapesDesc : String :=
  buildFQName esNamespace "snapshot_stats" "total_scrapes"

/-- `json_parse_failures` descriptor name of the `Snapshots` collector. -/
def snapshotsJsonParseFailuresDesc : String :=
  buildFQName esNamespace "snapshot_stats" "json_parse_failures"

/-- Mutable bookkeeping state of a `Snapshots` collector instance
(`snapshots.go:46-47`): the `up` gauge and the two monotonic counters. -/
structure SnapshotsState where
  up : Int
  totalScrapes : Nat
  jsonParseFailures : Nat
  deriving Repr, DecidableEq

/-- `Snapshots.Describe` (`snapshots.go:195`): sends the descriptor of every
`snapshotMetrics` entry, then the three bookkeeping descriptors. (The
`repositoryMetrics` descriptors are not sent.) -/
def snapshotsDescribe : List String :=
  snapshotMetrics.map (·.desc) ++
    [snapshotsUpDesc, snapshotsTotalScrapesDesc, snapshotsJsonParseFailuresDesc]

/-- `Snapshots.fetchAndDecodeSnapshotsStats` (`snapshots.go:232`): fetch the
repository map from `/_snapshot`; on failure propagate the error. Then for
each repository fetch `/_snapshot/<repo>/_all`; a per-repository failure is
skipped with `continue` (no log call), a success stores the payload under the
repository key. Inputs: the environment's fetch outcomes and the current
`jsonParseFailures` counter; outputs: the result or error, and the counter.
`aggregateStep` is the body of the `for repository := range srr` loop
(`snapshots.go:242-251`), named so the fold can be characterised. -/
def aggregateStep (detail : String → FetchResult SnapshotStatsResponse)
    (acc : List (String × SnapshotStatsResponse) × Nat) (repository : String) :
    List (String × SnapshotStatsResponse) × Nat :=
  match getAndParseURL (detail repository) acc.2 with
  | (.error _, j) => (acc.1, j)
  | (.ok ssr, j) => (acc.1 ++ [(repository, ssr)], j)

/-- The body of `Snapshots.fetchAndDecodeSnapshotsStats`: discovery first,
then the fold of `aggregateStep` over the repository keys, starting from the
empty mapping. -/
def fetchAndDecodeSnapshotsStats
    (discovery : FetchResult SnapshotRepositoriesResponse)
    (detail : String → FetchResult SnapshotStatsResponse)
    (jsonParseFailures : Nat) :
    Except FetchError (List (String × SnapshotStatsResponse)) × Nat :=
  match getAndParseURL discovery jsonParseFailures with
  | (.error e, jpf) => (.error e, jpf)
  | (.ok srr, jpf) =>
    let fold := srr.foldl (aggregateStep detail)
      (([] : List (String × SnapshotStatsResponse)), jpf)
    (.ok fold.1, fold.2)

/-- The three deferred bookkeeping samples of `Snapshots.Collect`
(`snapshots.go:259-263`): `up`, `totalScrapes`, `jsonParseFailures`, in that
order, carrying the collector state's current values (no variable labels). -/
def snapshotsBookkeepingSamples (st : SnapshotsState) : List Sample :=
  [ { desc := snapshotsUpDesc, value := st.up, labels := [] },
    { desc := snapshotsTotalScrapesDesc, value := (st.totalScrapes : Int), labels := [] },
    { desc := snapshotsJsonParseFailuresDesc, value := (st.jsonParseFailures : Int), labels := [] } ]

/-- Data samples emitted for one `(repositoryName, snapshotStats)` pair in
the loop of `Snapshots.Collect` (`snapshots.go:278-300`): every
`repositoryMetrics` entry, then — unless the record sequence is empty
(`continue`) — every `snapshotMetrics` entry applied to
`Snapshots[len(Snapshots)-1]`, the last record as given. -/
def repositoryDataSamples (repositoryName : String)
    (snapshotStats : SnapshotStatsResponse) : List Sample :=
  (repositoryMetrics.map fun metric =>
    { desc := metric.desc
      value := metric.value snapshotStats
      labels := metric.labels repositoryName }) ++
  (match snapshotStats.snapshots.getLast? with
   | none => []
   | some lastSnapshot =>
     snapshotMetrics.map fun metric =>
       { desc := metric.desc
         value := metric.value lastSnapshot
         labels := metric.labels repositoryName lastSnapshot })

/-- `Snapshots.Collect` (`snapshots.go:257`): increment `totalScrapes`; run
discovery + aggregation; on failure set `up = 0`, log a warning and return;
on success set `up = 1` and emit the data samples of every aggregated pair.
The deferred function emits the three bookkeeping samples on every exit
path, after everything else. Returns the new state, the emitted samples in
order, and the warning log messages. -/
def snapshotsCollect (st : SnapshotsState)
    (discovery : FetchResult SnapshotRepositoriesResponse)
    (detail : String → FetchResult SnapshotStatsResponse) :
    SnapshotsState × List Sample × List String :=
  let st := { st with totalScrapes := st.totalScrapes + 1 }
  match fetchAndDecodeSnapshotsStats discovery detail st.jsonParseFailures with
  | (.error _, jpf) =>
    let st := { st with up := 0, jsonParseFailures := jpf }
    (st, snapshotsBookkeepingSamples st,
      ["failed to fetch and decode snapshot stats"])
  | (.ok mssr, jpf) =>
    let st := { st with up := 1, jsonParseFailures := jpf }
    (st,
      (mssr.flatMap fun pair => repositoryDataSamples pair.1 pair.2) ++
        snapshotsBookkeepingSamples st,
      [])

/-- Fully qualified `up` name of the `IndicesSettings` collector
(`indices_settings.go:33-38`). -/
def indicesSettingsUpDesc : String :=
  buildFQName esNamespace "indices_settings_stats" "up"

/-- `total_scrapes` name of the `IndicesSettings` collector. -/
def indicesSettingsTotalScrapesDesc : String :=
  buildFQName esNamespace "indices_settings_stats" "total_scrapes"

/-- `read_only_indices` name of the `IndicesSettings` collector. -/
def indicesSettingsReadOnlyDesc : String :=
  buildFQName esNamespace "indices_settings_stats" "read_only_indices"

/-- `json_parse_failures` name of the `IndicesSettings` collector. -/
def indicesSettingsJsonParseFailuresDesc : String :=
  buildFQName esNamespace "indices_settings_stats" "json_parse_failures"

/-- Mutable state of an `IndicesSettings` collector instance
(`indices_settings.go:21-23`): all four metrics are vectors over the single
label `url`; the collector only ever touches the child for its own URL, so
the state holds that child's values. -/
structure IndicesSettingsState where
  up : Int
  readOnlyIndices : Int
  totalScrapes : Nat
  jsonParseFailures : Nat
  deriving Repr, DecidableEq

/-- `IndicesSettings.Describe` (`indices_settings.go:61`): sends the
descriptors of `up`, `totalScrapes`, `readOnlyIndices` and
`jsonParseFailures`, in that order. -/
def indicesSettingsDescribe : List String :=
  [ indicesSettingsUpDesc, indicesSettingsTotalScrapesDesc,
    indicesSettingsReadOnlyDesc, indicesSettingsJsonParseFailuresDesc ]

/-- `IndicesSettings.Collect` (`indices_settings.go:110`): increment
`totalScrapes`; fetch `/_all/_settings`; on failure set `readOnlyIndices = 0`
and `up = 0`, log a warning and return — nothing is sent on the channel on
this path. On success set `up = 1`, count the indices whose
`Settings.IndexInfo.Blocks.ReadOnly` equals `"true"`, set `readOnlyIndices`
to that count, and emit `up`, `totalScrapes`, `jsonParseFailures`,
`readOnlyIndices` (each vector's one child, labelled with the collector's
URL). Returns the new state, the emitted samples, and the warning logs. -/
def indicesSettingsCollect (st : IndicesSettingsState) (urlStr : String)
    (fetch : FetchResult IndicesSettingsResponse) :
    IndicesSettingsState × List Sample × List String :=
  let st := { st with totalScrapes := st.totalScrapes + 1 }
  match getAndParseURL fetch st.jsonParseFailures with
  | (.error _, jpf) =>
    let st := { st with readOnlyIndices := 0, up := 0, jsonParseFailures := jpf }
    (st, [], ["failed to fetch and decode cluster settings stats"])
  | (.ok asr, jpf) =>
    let c := (asr.filter fun pair => pair.2.readOnly == "true").length
    let st := { st with up := 1, jsonParseFailures := jpf, readOnlyIndices := (c : Int) }
    (st,
      [ { desc := indicesSettingsUpDesc, value := st.up, labels := [urlStr] },
        { desc := indicesSettingsTotalScrapesDesc, value := (st.totalScrapes : Int),
          labels := [urlStr] },
        { desc := indicesSettingsJsonParseFailuresDesc, value := (st.jsonParseFailures : Int),
          labels := [urlStr] },
        { desc := indicesSettingsReadOnlyDesc, value := st.readOnlyIndices,
          labels := [urlStr] } ],
      [])

/-! ### Characterisations of the aggregation fold and the two `Collect` paths -/

/-- `true` iff the fetch outcome is a JSON decode failure. -/
def FetchResult.isDecodeError {α : Type} : FetchResult α → Bool
  | .decodeError => true
  | _ => false

/-- The result mapping the aggregation loop builds: one entry per discovered
repository whose detail fetch decoded, in discovery order. -/
def aggregatedStats (detail : String → FetchResult SnapshotStatsResponse)
    (repos : List String) : List (String × SnapshotStatsResponse) :=
  repos.filterMap fun repository =>
    match detail repository with
    | .ok ssr => some (repository, ssr)
    | _ => none

/-- Number of discovered repositories whose detail fetch is a decode
failure: each one increments `jsonParseFailures` by exactly 1. -/
def detailDecodeFailures (detail : String → FetchResult SnapshotStatsResponse)
    (repos : List String) : Nat :=
  (repos.filter fun repository => (detail repository).isDecodeError).length

/-- Counter increment charged to the discovery fetch itself: 1 on a decode
failure, 0 otherwise. -/
def discoveryParseInc {α : Type} (r : FetchResult α) : Nat :=
  if r.isDecodeError then 1 else 0

/-- Number of discovered repositories with a successful detail fetch
(the spec's `M`). -/
def successfulFetches (detail : String → FetchResult SnapshotStatsResponse)
    (repos : List String) : Nat :=
  (repos.filter fun repository => (detail repository).isOk).length

/-- Number of discovered repositories with a successful detail fetch whose
record sequence is non-empty (the spec's count of `M` payloads with ≥ 1
record). -/
def nonEmptySuccessfulFetches
    (detail : String → FetchResult SnapshotStatsResponse)
    (repos : List String) : Nat :=
  (repos.filter fun repository =>
    match detail repository with
    | .ok ssr => !ssr.snapshots.isEmpty
    | _ => false).length

lemma aggregateStep_fold_spec (detail : String → FetchResult SnapshotStatsResponse) :
    ∀ (repos : List String) (acc : List (String × SnapshotStatsResponse)) (j : Nat),
      repos.foldl (aggregateStep detail) (acc, j)
        = (acc ++ aggregatedStats detail repos,
           j + detailDecodeFailures detail repos) := by
  intro repos
  induction repos with
  | nil => intro acc j; simp [aggregatedStats, detailDecodeFailures]
  | cons r rs ih =>
    intro acc j
    cases hr : detail r <;>
      simp [aggregateStep, getAndParseURL, hr, ih, aggregatedStats,
        detailDecodeFailures, FetchResult.isDecodeError, List.filter_cons,
        Nat.add_comm, Nat.add_assoc, Nat.add_left_comm]

lemma fetchAndDecodeSnapshotsStats_ok
    (detail : String → FetchResult SnapshotStatsResponse)
    (repos : List String) (j : Nat) :
    fetchAndDecodeSnapshotsStats (.ok repos) detail j
      = (.ok (aggregatedStats detail repos),
         j + detailDecodeFailures detail repos) := by
  simp [fetchAndDecodeSnapshotsStats, getAndParseURL, aggregateStep_fold_spec]

lemma snapshotsCollect_ok (st : SnapshotsState) (repos : List String)
    (detail : String → FetchResult SnapshotStatsResponse) :
    snapshotsCollect st (.ok repos) detail
      = (⟨1, st.totalScrapes + 1,
          st.jsonParseFailures + detailDecodeFailures detail repos⟩,
         ((aggregatedStats detail repos).flatMap fun pair =>
             repositoryDataSamples pair.1 pair.2) ++
           snapshotsBookkeepingSamples
             ⟨1, st.totalScrapes + 1,
              st.jsonParseFailures + detailDecodeFailures detail repos⟩,
         []) := by
  simp [snapshotsCollect, fetchAndDecodeSnapshotsStats_ok]

lemma snapshotsCollect_error (st : SnapshotsState)
    (discovery : FetchResult SnapshotRepositoriesResponse)
    (detail : String → FetchResult SnapshotStatsResponse)
    (h : discovery.isOk = false) :
    snapshotsCollect st discovery detail
      = (⟨0, st.totalScrapes + 1,
          st.jsonParseFailures + discoveryParseInc discovery⟩,
         snapshotsBookkeepingSamples
           ⟨0, st.totalScrapes + 1,
            st.jsonParseFailures + discoveryParseInc discovery⟩,
         ["failed to fetch and decode snapshot stats"]) := by
  cases discovery <;>
    simp_all [snapshotsCollect, fetchAndDecodeSnapshotsStats, getAndParseURL,
      discoveryParseInc, FetchResult.isDecodeError, FetchResult.isOk]

lemma mem_aggregatedStats (detail : String → FetchResult SnapshotStatsResponse)
    (repos : List String) (r : String) (ssr : SnapshotStatsResponse) :
    (r, ssr) ∈ aggregatedStats detail repos ↔ r ∈ repos ∧ detail r = .ok ssr := by
  constructor
  · intro h
    obtain ⟨a, ha, hfa⟩ := List.mem_filterMap.mp h
    cases hda : detail a <;> rw [hda] at hfa <;> simp at hfa
    obtain ⟨rfl, rfl⟩ := hfa
    exact ⟨ha, hda⟩
  · rintro ⟨hr, hok⟩
    exact List.mem_filterMap.mpr ⟨r, hr, by rw [hok]⟩

lemma repositoryMetric_labels_head (repo : String) :
    ∀ m ∈ repositoryMetrics, (m.labels repo).head? = some repo := by
  intro m hm
  simp only [repositoryMetrics, List.mem_cons, List.not_mem_nil, or_false] at hm
  rcases hm with rfl | rfl <;> rfl

lemma snapshotMetric_labels_head (repo : String) (sd : SnapshotStatDataResponse) :
    ∀ m ∈ snapshotMetrics, (m.labels repo sd).head? = some repo := by
  intro m hm
  simp only [snapshotMetrics, List.mem_cons, List.not_mem_nil, or_false] at hm
  rcases hm with rfl | rfl | rfl | rfl | rfl | rfl | rfl <;> rfl

lemma repositoryDataSamples_labels_head (repo : String)
    (ssr : SnapshotStatsResponse) (sample : Sample)
    (hs : sample ∈ repositoryDataSamples repo ssr) :
    sample.labels.head? = some repo := by
  unfold repositoryDataSamples at hs
  rcases List.mem_append.mp hs with h | h
  · obtain ⟨m, hm, rfl⟩ := List.mem_map.mp h
    exact repositoryMetric_labels_head repo m hm
  · cases hl : ssr.snapshots.getLast? with
    | none => rw [hl] at h; simp at h
    | some last =>
      rw [hl] at h
      obtain ⟨m, hm, rfl⟩ := List.mem_map.mp h
      exact snapshotMetric_labels_head repo last m hm

lemma repositoryDataSamples_length (repo : String) (ssr : SnapshotStatsResponse) :
    (repositoryDataSamples repo ssr).length
      = 2 + (if ssr.snapshots.isEmpty then 0 else 7) := by
  cases hl : ssr.snapshots.getLast? with
  | none =>
    have he : ssr.snapshots = [] := List.getLast?_eq_none_iff.mp hl
    simp [repositoryDataSamples, hl, he, repositoryMetrics]
  | some last =>
    have hne : ssr.snapshots ≠ [] := by
      intro he; rw [he] at hl; simp at hl
    simp [repositoryDataSamples, hl, repositoryMetrics, snapshotMetrics,
      List.isEmpty_iff, hne]

lemma aggregatedStats_cons (detail : String → FetchResult SnapshotStatsResponse)
    (r : String) (rs : List String) :
    aggregatedStats detail (r :: rs)
      = (match detail r with | .ok ssr => [(r, ssr)] | _ => [])
          ++ aggregatedStats detail rs := by
  cases h : detail r <;> simp [aggregatedStats, List.filterMap_cons, h]

lemma successfulFetches_cons (detail : String → FetchResult SnapshotStatsResponse)
    (r : String) (rs : List String) :
    successfulFetches detail (r :: rs)
      = (if (detail r).isOk then 1 else 0) + successfulFetches detail rs := by
  unfold successfulFetches
  rw [List.filter_cons]
  cases h : (detail r).isOk <;> simp [h, Nat.add_comm]

lemma nonEmptySuccessfulFetches_cons
    (detail : String → FetchResult SnapshotStatsResponse)
    (r : String) (rs : List String) :
    nonEmptySuccessfulFetches detail (r :: rs)
      = (match detail r with
         | .ok ssr => if ssr.snapshots.isEmpty then 0 else 1
         | _ => 0) + nonEmptySuccessfulFetches detail rs := by
  unfold nonEmptySuccessfulFetches
  rw [List.filter_cons]
  cases h : detail r with
  | ok ssr => cases he : ssr.snapshots.isEmpty <;> simp [h, he, Nat.add_comm]
  | getError => simp [h]
  | statusError code => simp [h]
  | decodeError => simp [h]

lemma aggregated_dataPart_length
    (detail : String → FetchResult SnapshotStatsResponse) (repos : List String) :
    ((aggregatedStats detail repos).flatMap fun pair =>
        repositoryDataSamples pair.1 pair.2).length
      = 2 * successfulFetches detail repos
        + 7 * nonEmptySuccessfulFetches detail repos := by
  induction repos with
  | nil => simp [aggregatedStats, successfulFetches, nonEmptySuccessfulFetches]
  | cons r rs ih =>
    rw [aggregatedStats_cons, List.flatMap_append, List.length_append, ih,
      successfulFetches_cons, nonEmptySuccessfulFetches_cons]
    cases hr : detail r with
    | ok ssr =>
      simp only [hr, FetchResult.isOk, List.flatMap_cons, List.flatMap_nil,
        List.append_nil, if_true]
      rw [repositoryDataSamples_length]
      cases he : ssr.snapshots.isEmpty <;> simp [he] <;> omega
    | getError => simp [hr, FetchResult.isOk]
    | statusError code => simp [hr, FetchResult.isOk]
    | decodeError => simp [hr, FetchResult.isOk]

/-! ### Concrete environment data used by witnesses and counterexamples -/

/-- A successful snapshot record with two indices, no failures, and
timestamps 100ms / 1500ms. -/
def sampleSnapshotA : SnapshotStatDataResponse :=
  { state := "SUCCESS", version := "6.8.1", indices := ["i1", "i2"],
    startTimeInMillis := 100, endTimeInMillis := 1500,
    failures := [], shards := ⟨5, 1, 4⟩ }

/-- A partial snapshot record, chronologically after `sampleSnapshotA`. -/
def sampleSnapshotB : SnapshotStatDataResponse :=
  { state := "PARTIAL", version := "6.8.2", indices := ["i1"],
    startTimeInMillis := 200, endTimeInMillis := 2999,
    failures := ["f1"], shards := ⟨3, 0, 3⟩ }

/-- A repository payload with two records, oldest first. -/
def sampleStats : SnapshotStatsResponse := ⟨[sampleSnapshotA, sampleSnapshotB]⟩

/-- A repository payload with an empty record sequence. -/
def emptyStats : SnapshotStatsResponse := ⟨[]⟩

/-- Detail-fetch environment: repository `good` decodes to `sampleStats`,
`empty` decodes to a zero-record payload, every other repository answers
with HTTP 500. -/
def detailEnv : String → FetchResult SnapshotStatsResponse :=
  fun repository =>
    if repository = "good" then .ok sampleStats
    else if repository = "empty" then .ok emptyStats
    else .statusError 500

/-! ### Claim theorems -/

/-- C1, counterexample: an `IndicesSettings.Collect` cycle whose settings
fetch fails to decode emits no samples at all — not the three bookkeeping
samples the claim requires on every discovery-failure path. -/
theorem indicesSettingsCollect_failure_emits_nothing :
    (indicesSettingsCollect ⟨1, 7, 41, 2⟩ "http://localhost:9200"
      FetchResult.decodeError).2.1 = ([] : List Sample) := rfl

/-- C1 (amended): for the `Snapshots` collector, a failed discovery
fetch/decode makes `Collect` emit exactly the three bookkeeping samples
(`up` with value 0, `totalScrapes`, `jsonParseFailures`) and no data
samples, and the deferred bookkeeping emission also runs on the success
path; for the `IndicesSettings` collector, the discovery-failure path
returns early and emits nothing. -/
theorem collect_discovery_failure_emission
    (st : SnapshotsState) (discovery : FetchResult SnapshotRepositoriesResponse)
    (detail : String → FetchResult SnapshotStatsResponse)
    (h : discovery.isOk = false)
    (st2 : IndicesSettingsState) (u : String)
    (fetch : FetchResult IndicesSettingsResponse) (h2 : fetch.isOk = false) :
    (snapshotsCollect st discovery detail).2.1
      = [ { desc := snapshotsUpDesc, value := 0, labels := [] },
          { desc := snapshotsTotalScrapesDesc,
            value := ((st.totalScrapes + 1 : Nat) : Int), labels := [] },
          { desc := snapshotsJsonParseFailuresDesc,
            value := ((st.jsonParseFailures + discoveryParseInc discovery : Nat) : Int),
            labels := [] } ]
    ∧ (∀ repos, ∃ dataPart,
        (snapshotsCollect st (.ok repos) detail).2.1
          = dataPart ++
              snapshotsBookkeepingSamples (snapshotsCollect st (.ok repos) detail).1)
    ∧ (indicesSettingsCollect st2 u fetch).2.1 = [] := by
  refine ⟨?_, ?_, ?_⟩
  · rw [snapshotsCollect_error st discovery detail h]
    simp [snapshotsBookkeepingSamples]
  · intro repos
    rw [snapshotsCollect_ok]
    exact ⟨_, rfl⟩
  · cases fetch <;> simp_all [indicesSettingsCollect, getAndParseURL,
      FetchResult.isOk]

/-- C1 witness: both hypotheses discharged at a concrete input (a 500
discovery response for `Snapshots`, a decode failure for
`IndicesSettings`). -/
theorem collect_discovery_failure_emission_witness :
    (FetchResult.statusError 500 : FetchResult SnapshotRepositoriesResponse).isOk = false
    ∧ (snapshotsCollect ⟨1, 4, 2⟩ (.statusError 500) (fun _ => .getError)).2.1
      = [ { desc := snapshotsUpDesc, value := 0, labels := [] },
          { desc := snapshotsTotalScrapesDesc, value := 5, labels := [] },
          { desc := snapshotsJsonParseFailuresDesc, value := 2, labels := [] } ] :=
  ⟨rfl, by
    have h := collect_discovery_failure_emission ⟨1, 4, 2⟩ (.statusError 500)
      (fun _ => .getError) rfl ⟨1, 0, 0, 0⟩ "u"
      (FetchResult.decodeError : FetchResult IndicesSettingsResponse) rfl
    simpa [discoveryParseInc, FetchResult.isDecodeError] using h.1⟩

/-- C2, counterexample: `elasticsearch_snapshot_stats_number_of_snapshots`
is a descriptor of the per-entity (repository) table, but
`Snapshots.Describe` never emits it — the claim that Describe covers both
descriptor tables is false. -/
theorem snapshotsDescribe_omits_repositoryMetrics :
    "elasticsearch_snapshot_stats_number_of_snapshots"
        ∈ repositoryMetrics.map RepositoryMetric.desc
    ∧ "elasticsearch_snapshot_stats_number_of_snapshots" ∉ snapshotsDescribe := by
  decide

/-- C2 (amended): `Snapshots.Describe` emits exactly the identities of the
per-latest-record (snapshot) table plus the three bookkeeping identities;
the per-entity (repository) table's identities are omitted.
`IndicesSettings.Describe` emits its four identities (`up`, `total_scrapes`,
`read_only_indices`, `json_parse_failures`). -/
theorem describe_identities :
    (∀ d, d ∈ snapshotsDescribe ↔
        (d ∈ snapshotMetrics.map SnapshotMetric.desc ∨ d = snapshotsUpDesc ∨
         d = snapshotsTotalScrapesDesc ∨ d = snapshotsJsonParseFailuresDesc))
    ∧ (∀ d ∈ repositoryMetrics.map RepositoryMetric.desc, d ∉ snapshotsDescribe)
    ∧ indicesSettingsDescribe
        = [indicesSettingsUpDesc, indicesSettingsTotalScrapesDesc,
           indicesSettingsReadOnlyDesc, indicesSettingsJsonParseFailuresDesc] := by
  refine ⟨?_, ?_, rfl⟩
  · intro d
    simp [snapshotsDescribe, or_assoc]
  · intro d hd
    simp only [repositoryMetrics, List.map_cons, List.map_nil, List.mem_cons,
      List.not_mem_nil, or_false] at hd
    rcases hd with h | h <;> subst h <;> decide

/-- C2 witness: the oldest-snapshot-timestamp identity is in the repository
table, hence (by the theorem) absent from `Snapshots.Describe`. -/
theorem describe_identities_witness :
    "elasticsearch_snapshot_stats_oldest_snapshot_timestamp" ∉ snapshotsDescribe :=
  describe_identities.2.1 _ (by decide)

/-- C3: after a `Collect` cycle the `up` gauge of either collector equals 1
iff the discovery (respectively settings) fetch/decode succeeded, for every
prior state and every behaviour of the per-entity detail fetches. -/
theorem up_iff_discovery_success
    (st : SnapshotsState) (discovery : FetchResult SnapshotRepositoriesResponse)
    (detail : String → FetchResult SnapshotStatsResponse)
    (st2 : IndicesSettingsState) (u : String)
    (fetch : FetchResult IndicesSettingsResponse) :
    ((snapshotsCollect st discovery detail).1.up = 1 ↔ discovery.isOk = true)
    ∧ ((indicesSettingsCollect st2 u fetch).1.up = 1 ↔ fetch.isOk = true) := by
  constructor
  · cases discovery with
    | ok repos => simp [snapshotsCollect_ok, FetchResult.isOk]
    | getError => simp [snapshotsCollect_error, FetchResult.isOk]
    | statusError code => simp [snapshotsCollect_error, FetchResult.isOk]
    | decodeError => simp [snapshotsCollect_error, FetchResult.isOk]
  · cases fetch <;> simp [indicesSettingsCollect, getAndParseURL, FetchResult.isOk]

/-- C9: whenever the settings fetch/decode fails, `IndicesSettings.Collect`
sets `readOnlyIndices` to 0, regardless of the count computed in earlier
successful cycles. -/
theorem readOnlyIndices_reset_on_failure
    (st : IndicesSettingsState) (u : String)
    (fetch : FetchResult IndicesSettingsResponse)
    (h : fetch.isOk = false) :
    (indicesSettingsCollect st u fetch).1.readOnlyIndices = 0 := by
  cases fetch <;> simp_all [indicesSettingsCollect, getAndParseURL,
    FetchResult.isOk]

/-- C9 witness: a collector that previously computed `readOnlyIndices = 5`
reads 0 after a failed cycle. -/
theorem readOnlyIndices_reset_on_failure_witness :
    (FetchResult.decodeError : FetchResult IndicesSettingsResponse).isOk = false
    ∧ (indicesSettingsCollect ⟨1, 5, 10, 0⟩ "http://localhost:9200"
        FetchResult.decodeError).1.readOnlyIndices = 0 :=
  ⟨rfl, readOnlyIndices_reset_on_failure ⟨1, 5, 10, 0⟩ "http://localhost:9200"
    FetchResult.decodeError rfl⟩

/-- C4: with discovery returning `repos` and `M` successful detail fetches,
`Snapshots.Collect` emits the data samples (followed by the bookkeeping
samples), the data-sample count is (per-entity descriptors × M) +
(per-latest-record descriptors × count of successful payloads with ≥ 1
record), and every emitted data sample's repository label is a discovered
repository. -/
theorem collect_data_sample_count (st : SnapshotsState) (repos : List String)
    (detail : String → FetchResult SnapshotStatsResponse) :
    ((snapshotsCollect st (.ok repos) detail).2.1
      = ((aggregatedStats detail repos).flatMap fun pair =>
          repositoryDataSamples pair.1 pair.2)
        ++ snapshotsBookkeepingSamples (snapshotsCollect st (.ok repos) detail).1)
    ∧ ((aggregatedStats detail repos).flatMap fun pair =>
        repositoryDataSamples pair.1 pair.2).length
      = repositoryMetrics.length * successfulFetches detail repos
        + snapshotMetrics.length * nonEmptySuccessfulFetches detail repos
    ∧ ∀ sample ∈ ((aggregatedStats detail repos).flatMap fun pair =>
        repositoryDataSamples pair.1 pair.2),
        ∀ repositoryName, sample.labels.head? = some repositoryName →
          repositoryName ∈ repos := by
  refine ⟨by simp [snapshotsCollect_ok], ?_, ?_⟩
  · have h2 : repositoryMetrics.length = 2 := rfl
    have h7 : snapshotMetrics.length = 7 := rfl
    rw [h2, h7]
    exact aggregated_dataPart_length detail repos
  · intro sample hs repositoryName hname
    obtain ⟨⟨r, ssr⟩, hmem, hsample⟩ := List.mem_flatMap.mp hs
    have hh := repositoryDataSamples_labels_head r ssr sample hsample
    rw [hh] at hname
    obtain rfl : r = repositoryName := by injection hname
    exact ((mem_aggregatedStats detail repos r ssr).mp hmem).1

/-- C4 witness: with repositories `good` (two records), `empty` (zero
records) and `bad` (HTTP 500), the data part holds 2·2 + 7·1 = 11 samples
and the first sample's repository label, `good`, is among the discovered
repositories (via the theorem). -/
theorem collect_data_sample_count_witness :
    ((aggregatedStats detailEnv ["good", "empty", "bad"]).flatMap fun pair =>
        repositoryDataSamples pair.1 pair.2).length = 11
    ∧ ({ desc := "elasticsearch_snapshot_stats_number_of_snapshots", value := 2,
         labels := ["good"] } : Sample)
        ∈ ((aggregatedStats detailEnv ["good", "empty", "bad"]).flatMap fun pair =>
            repositoryDataSamples pair.1 pair.2)
    ∧ "good" ∈ ["good", "empty", "bad"] := by
  refine ⟨by decide, by decide, ?_⟩
  exact (collect_data_sample_count ⟨0, 0, 0⟩ ["good", "empty", "bad"]
    detailEnv).2.2
    { desc := "elasticsearch_snapshot_stats_number_of_snapshots", value := 2,
      labels := ["good"] } (by decide) "good" rfl

/-- C5, counterexample: in a cycle where repository `bad`'s detail fetch
fails with HTTP 500, the cycle logs nothing — the claim that the per-entity
failure is logged is false — even though the entity is excluded, `good`'s
payload is kept and `up` ends at 1. -/
theorem entity_failure_not_logged :
    (snapshotsCollect ⟨0, 0, 0⟩ (.ok ["good", "bad"]) detailEnv).2.2 = []
    ∧ (snapshotsCollect ⟨0, 0, 0⟩ (.ok ["good", "bad"]) detailEnv).1.up = 1
    ∧ aggregatedStats detailEnv ["good", "bad"] = [("good", sampleStats)] := by
  refine ⟨by decide, by decide, by decide⟩

/-- C5 (amended): a per-entity detail fetch/decode failure leaves the entity
out of the result mapping silently — no log message is emitted during the
cycle — and does not abort the cycle: `up` stays 1 and every other entity
with a successful fetch keeps its entry (hence its metrics) intact. -/
theorem entity_failure_isolated (st : SnapshotsState) (repos : List String)
    (detail : String → FetchResult SnapshotStatsResponse) (r : String)
    (hr : r ∈ repos) (hf : (detail r).isOk = false) :
    r ∉ (aggregatedStats detail repos).map Prod.fst
    ∧ (snapshotsCollect st (.ok repos) detail).1.up = 1
    ∧ (snapshotsCollect st (.ok repos) detail).2.2 = []
    ∧ ∀ r2 ssr, r2 ∈ repos → detail r2 = .ok ssr →
        (r2, ssr) ∈ aggregatedStats detail repos := by
  refine ⟨?_, by simp [snapshotsCollect_ok], by simp [snapshotsCollect_ok], ?_⟩
  · intro hmem
    obtain ⟨⟨a, ssr⟩, hp, hfst⟩ := List.mem_map.mp hmem
    obtain rfl : a = r := hfst
    have hok := ((mem_aggregatedStats detail repos a ssr).mp hp).2
    rw [hok] at hf
    simp [FetchResult.isOk] at hf
  · intro r2 ssr hr2 hok
    exact (mem_aggregatedStats detail repos r2 ssr).mpr ⟨hr2, hok⟩

/-- C5 witness: the amended theorem applied to repository `bad` of the
concrete environment. -/
theorem entity_failure_isolated_witness :
    "bad" ∈ ["good", "bad"] ∧ (detailEnv "bad").isOk = false
    ∧ "bad" ∉ (aggregatedStats detailEnv ["good", "bad"]).map Prod.fst :=
  ⟨by decide, by decide,
   (entity_failure_isolated ⟨0, 0, 0⟩ ["good", "bad"] detailEnv "bad"
     (by decide) (by decide)).1⟩

/-- C6: for a payload whose record sequence as given ends in `last`, the data
samples are the per-entity table applied to the payload followed by the
per-latest-record table applied to `last` (no re-sorting); for a payload with
zero records, only the per-entity table is applied. -/
theorem latest_record_table_application (repo : String)
    (ssr : SnapshotStatsResponse) :
    (∀ init last, ssr.snapshots = init ++ [last] →
      repositoryDataSamples repo ssr
        = (repositoryMetrics.map fun m =>
            { desc := m.desc, value := m.value ssr, labels := m.labels repo })
          ++ snapshotMetrics.map fun m =>
            { desc := m.desc, value := m.value last,
              labels := m.labels repo last })
    ∧ (ssr.snapshots = [] →
      repositoryDataSamples repo ssr
        = repositoryMetrics.map fun m =>
            { desc := m.desc, value := m.value ssr, labels := m.labels repo }) := by
  constructor
  · intro init last hsplit
    unfold repositoryDataSamples
    rw [hsplit, List.getLast?_concat]
  · intro h
    unfold repositoryDataSamples
    rw [h]
    simp

/-- C6 witness: the spec's own test — records
`[{t=100, SUCCESS}, {t=200, PARTIAL}]` — makes the per-latest-record table
operate on the `PARTIAL` record, and the emitted start-time sample carries
its labels and truncated timestamp. -/
theorem latest_record_table_application_witness :
    sampleStats.snapshots = [sampleSnapshotA] ++ [sampleSnapshotB]
    ∧ repositoryDataSamples "r1" sampleStats
        = (repositoryMetrics.map fun m =>
            ({ desc := m.desc, value := m.value sampleStats,
               labels := m.labels "r1" } : Sample))
          ++ (snapshotMetrics.map fun m =>
            ({ desc := m.desc, value := m.value sampleSnapshotB,
               labels := m.labels "r1" sampleSnapshotB } : Sample))
    ∧ ({ desc := "elasticsearch_snapshot_stats_snapshot_start_time_timestamp",
         value := 0, labels := ["r1", "PARTIAL", "6.8.2"] } : Sample)
        ∈ repositoryDataSamples "r1" sampleStats :=
  ⟨rfl,
   (latest_record_table_application "r1" sampleStats).1
     [sampleSnapshotA] sampleSnapshotB rfl,
   by decide⟩

/-- Decode failures charged to one `Snapshots.Collect` cycle: one if the
discovery response fails to decode, otherwise one per discovered repository
whose detail response fails to decode. -/
def decodeFailuresInCycle (discovery : FetchResult SnapshotRepositoriesResponse)
    (detail : String → FetchResult SnapshotStatsResponse) : Nat :=
  match discovery with
  | .ok repos => detailDecodeFailures detail repos
  | d => discoveryParseInc d

/-- C7: over one cycle of either collector, `jsonParseFailures` grows by
exactly the number of JSON decode failures observed in that cycle (hence is
monotonically non-decreasing across repeated calls), and a non-200 status
makes `getAndParseURL` return the status-code error without touching the
counter. -/
theorem jsonParseFailures_accounting (st : SnapshotsState)
    (discovery : FetchResult SnapshotRepositoriesResponse)
    (detail : String → FetchResult SnapshotStatsResponse)
    (st2 : IndicesSettingsState) (u : String)
    (fetch : FetchResult IndicesSettingsResponse) :
    (snapshotsCollect st discovery detail).1.jsonParseFailures
        = st.jsonParseFailures + decodeFailuresInCycle discovery detail
    ∧ st.jsonParseFailures ≤ (snapshotsCollect st discovery detail).1.jsonParseFailures
    ∧ (indicesSettingsCollect st2 u fetch).1.jsonParseFailures
        = st2.jsonParseFailures + discoveryParseInc fetch
    ∧ st2.jsonParseFailures ≤ (indicesSettingsCollect st2 u fetch).1.jsonParseFailures
    ∧ ∀ (α : Type) (code j : Nat),
        getAndParseURL (FetchResult.statusError code : FetchResult α) j
          = (.error (.httpStatus code), j) := by
  have hsnap : (snapshotsCollect st discovery detail).1.jsonParseFailures
      = st.jsonParseFailures + decodeFailuresInCycle discovery detail := by
    cases discovery with
    | ok repos => simp [snapshotsCollect_ok, decodeFailuresInCycle]
    | getError => simp [snapshotsCollect_error, decodeFailuresInCycle,
        discoveryParseInc, FetchResult.isDecodeError, FetchResult.isOk]
    | statusError code => simp [snapshotsCollect_error, decodeFailuresInCycle,
        discoveryParseInc, FetchResult.isDecodeError, FetchResult.isOk]
    | decodeError => simp [snapshotsCollect_error, decodeFailuresInCycle,
        discoveryParseInc, FetchResult.isDecodeError, FetchResult.isOk]
  have hind : (indicesSettingsCollect st2 u fetch).1.jsonParseFailures
      = st2.jsonParseFailures + discoveryParseInc fetch := by
    cases fetch <;> simp [indicesSettingsCollect, getAndParseURL,
      discoveryParseInc, FetchResult.isDecodeError]
  exact ⟨hsnap, by rw [hsnap]; exact Nat.le_add_right _ _,
    hind, by rw [hind]; exact Nat.le_add_right _ _,
    fun α code j => rfl⟩

/-- C8: the value-extraction functions of both descriptor tables are total
Lean functions of the payload (no error path), and the empty-sequence cases
resolve to 0: on a payload with zero records both per-entity values (snapshot
count, oldest-snapshot timestamp) are 0, and on a record with no indices and
no failures the index count and failure count are 0 while every other
function still returns its number. -/
theorem value_functions_empty_defaults :
    (∀ ssr : SnapshotStatsResponse, ssr.snapshots = [] →
      repositoryMetrics.map (fun m => m.value ssr) = [0, 0])
    ∧ (∀ state version startT endT shards,
        snapshotMetrics.map
            (fun m => m.value
              { state := state, version := version, indices := [],
                startTimeInMillis := startT, endTimeInMillis := endT,
                failures := [], shards := shards })
          = [0, startT.tdiv 1000, endT.tdiv 1000, 0, shards.total,
             shards.failed, shards.successful]) := by
  constructor
  · intro ssr h
    simp [repositoryMetrics, oldestSnapshotTimeValue, h]
  · intro state version startT endT shards
    simp [snapshotMetrics, snapshotStartTimeValue, snapshotEndTimeValue]

/-- C8 witness: the empty-payload hypothesis discharged on `emptyStats`. -/
theorem value_functions_empty_defaults_witness :
    emptyStats.snapshots = []
    ∧ repositoryMetrics.map (fun m => m.value emptyStats) = [0, 0] :=
  ⟨rfl, value_functions_empty_defaults.1 emptyStats rfl⟩

/-- C10: the start-time, end-time and oldest-snapshot value functions — the
ones installed in the descriptor tables — divide the record's epoch
milliseconds by 1000 with truncating integer division, so for non-negative
timestamps the emitted value is the largest whole second not exceeding the
timestamp: sub-second precision is discarded. -/
theorem timestamp_truncation (sd : SnapshotStatDataResponse)
    (ssr : SnapshotStatsResponse) (s0 : SnapshotStatDataResponse)
    (rest : List SnapshotStatDataResponse)
    (h1 : 0 ≤ sd.startTimeInMillis) (h2 : 0 ≤ sd.endTimeInMillis)
    (h3 : ssr.snapshots = s0 :: rest) (h4 : 0 ≤ s0.startTimeInMillis) :
    (snapshotStartTimeValue sd = sd.startTimeInMillis.tdiv 1000
      ∧ snapshotStartTimeValue sd * 1000 ≤ sd.startTimeInMillis
      ∧ sd.startTimeInMillis < (snapshotStartTimeValue sd + 1) * 1000)
    ∧ (snapshotEndTimeValue sd = sd.endTimeInMillis.tdiv 1000
      ∧ snapshotEndTimeValue sd * 1000 ≤ sd.endTimeInMillis
      ∧ sd.endTimeInMillis < (snapshotEndTimeValue sd + 1) * 1000)
    ∧ (oldestSnapshotTimeValue ssr = s0.startTimeInMillis.tdiv 1000
      ∧ oldestSnapshotTimeValue ssr * 1000 ≤ s0.startTimeInMillis
      ∧ s0.startTimeInMillis < (oldestSnapshotTimeValue ssr + 1) * 1000)
    ∧ (∃ m ∈ snapshotMetrics,
        m.desc = buildFQName esNamespace "snapshot_stats" "snapshot_start_time_timestamp"
        ∧ m.value = snapshotStartTimeValue)
    ∧ (∃ m ∈ snapshotMetrics,
        m.desc = buildFQName esNamespace "snapshot_stats" "snapshot_end_time_timestamp"
        ∧ m.value = snapshotEndTimeValue)
    ∧ (∃ m ∈ repositoryMetrics,
        m.desc = buildFQName esNamespace "snapshot_stats" "oldest_snapshot_timestamp"
        ∧ m.value = oldestSnapshotTimeValue) := by
  have key : ∀ a : Int, 0 ≤ a →
      a.tdiv 1000 * 1000 ≤ a ∧ a < (a.tdiv 1000 + 1) * 1000 := by
    intro a ha
    rw [Int.tdiv_eq_ediv ha (by norm_num)]
    omega
  have hold : oldestSnapshotTimeValue ssr = s0.startTimeInMillis.tdiv 1000 := by
    simp [oldestSnapshotTimeValue, h3]
  refine ⟨⟨rfl, key _ h1⟩, ⟨rfl, key _ h2⟩, ⟨hold, ?_, ?_⟩, ?_, ?_, ?_⟩
  · rw [hold]; exact (key _ h4).1
  · rw [hold]; exact (key _ h4).2
  · exact ⟨snapshotMetrics.get ⟨1, by decide⟩,
      List.get_mem snapshotMetrics 1 (by decide), rfl, rfl⟩
  · exact ⟨snapshotMetrics.get ⟨2, by decide⟩,
      List.get_mem snapshotMetrics 2 (by decide), rfl, rfl⟩
  · exact ⟨repositoryMetrics.get ⟨1, by decide⟩,
      List.get_mem repositoryMetrics 1 (by decide), rfl, rfl⟩

/-- C10 witness: record A ends at 1500ms; the emitted end-time value is 1,
the 500ms of sub-second precision being discarded, and the bounds of the
theorem hold there. -/
theorem timestamp_truncation_witness :
    (0 : Int) ≤ sampleSnapshotA.startTimeInMillis
    ∧ sampleStats.snapshots = sampleSnapshotA :: [sampleSnapshotB]
    ∧ snapshotEndTimeValue sampleSnapshotA = 1
    ∧ snapshotStartTimeValue sampleSnapshotA = 0
    ∧ (snapshotEndTimeValue sampleSnapshotA = sampleSnapshotA.endTimeInMillis.tdiv 1000
      ∧ snapshotEndTimeValue sampleSnapshotA * 1000 ≤ sampleSnapshotA.endTimeInMillis
      ∧ sampleSnapshotA.endTimeInMillis
          < (snapshotEndTimeValue sampleSnapshotA + 1) * 1000) :=
  ⟨by decide, rfl, by decide, by decide,
   (timestamp_truncation sampleSnapshotA sampleStats sampleSnapshotA
     [sampleSnapshotB] (by decide) (by decide) rfl (by decide)).2.1⟩

end ElasticsearchExporter
